import Mathlib

/-!
Verification of the object-tracker generator of the Vulkan-ValidationLayers
repository (`scripts/generators/object_tracker_generator.py`).

The generator walks a description of every API command (name, return type,
parameter list, handle/struct schema) and emits the interception code of the
object-lifetime tracking layer.  This development shallowly embeds the
generator's decision logic and the runtime behaviour of the code it emits:

* `Member` / `Command` / `Env` mirror the `vulkan_object` metadata the
  generator consumes (`Member`/`Param`, `Command`, `self.vk.handles`,
  `self.vk.structs`, `self.valid_vuids`).
* the string tables (`manualVuids`, the `APISpecific` helpers) are transcribed
  from the source; C string quoting of the emitted text is dropped, a VUID is
  represented by its identifier and `kVUIDUndefined` is the undefined
  placeholder.
* `validateObjects` interprets the pre-call validation code the generator
  emits: it walks the zipped (member, runtime value) list and collects the
  `ValidateObject` invocations (as `VCall` records) that the generated code
  would perform on those runtime values.
* `postCallRecord` / `preCallRecordDestroy` interpret the generated recording
  code as registry transformers; the registry is the list of live
  (handle value, object type) records.

Runtime helpers whose bodies live outside the generator (`getVUID`,
`CreateObject`, `RecordDestroyObject`, `ReportLeaked*Objects`,
`DestroyUndestroyedObjects`) are modelled from the specification and marked as
such in their doc comments.
-/

/-! ## String containment (Python `needle in hay`) -/

/-- Whether `needle` is a prefix of `hay` (char lists). -/
def startsWithChars : List Char → List Char → Bool
  | _, [] => true
  | [], _ :: _ => false
  | h :: hs, n :: ns => h == n && startsWithChars hs ns

/-- Whether `needle` occurs contiguously inside `hay` (char lists). -/
def containsChars : List Char → List Char → Bool
  | [], needle => startsWithChars [] needle
  | hay@(_ :: rest), needle => startsWithChars hay needle || containsChars rest needle

/-- Python's `needle in hay` substring test on strings. -/
def strContains (hay needle : String) : Bool :=
  containsChars hay.data needle.data

/-! ## Result codes, records, registry -/

/-- The result codes the generated recording code inspects, plus
representative error codes (`otherError` covers the rest of the enum). -/
inductive VkResult where
  | VK_SUCCESS
  | VK_INCOMPLETE
  | VK_ERROR_INCOMPATIBLE_SHADER_BINARY_EXT
  | VK_ERROR_VALIDATION_FAILED_EXT
  | VK_ERROR_OUT_OF_HOST_MEMORY
  | VK_ERROR_DEVICE_LOST
  | otherError (code : Int)
deriving DecidableEq, Repr

/-- A live registry record: handle value (0 is the null handle) and its
object-type tag (the `kVulkanObjectType...` tag, kept as the `Vk...` name). -/
structure ObjRecord where
  handle : Nat
  otype : String
deriving DecidableEq, Repr

/-- The handle registry: the list of live records, in insertion order. -/
abbrev Registry := List ObjRecord

/-! ## Command metadata (the generator's input) -/

/-- A command parameter or struct member, as in `vulkan_object.Member`/`Param`:
`length` is the name of the count field for array members (`None` when not an
array), `pointer`/`optional`/`optionalPointer`/`noAutoValidity` are the XML
attributes the generator reads. -/
structure Member where
  name : String
  type : String
  length : Option String
  pointer : Bool
  optional : Bool
  optionalPointer : Bool
  noAutoValidity : Bool
deriving DecidableEq, Repr

/-- A command, as in `vulkan_object.Command`: name, C return type, parameters
and the optional promoted alias used for VUID lookup (`alias` in the source;
`alias` is a Lean keyword, hence `aliasName`). -/
structure Command where
  name : String
  returnType : String
  params : List Member
  aliasName : Option String
deriving DecidableEq, Repr

/-- The part of `self.vk` (and `self.valid_vuids`) the embedded logic reads:
the names of handle types, the struct schema, the command table (for alias
lookup) and the list of valid usage identifiers from the validusage file. -/
structure Env where
  handleNames : List String
  structs : List (String × List Member)
  commands : List Command
  validVuids : List String
deriving Repr

/-- Python truthiness of `member.length` (`None` and the empty string are
falsy). -/
def hasLength (m : Member) : Bool :=
  match m.length with
  | none => false
  | some s => !(s == "")

/-- The undefined-VUID placeholder the generated code falls back to. -/
def kVUIDUndefined : String := "kVUIDUndefined"

/-! ## APISpecific helpers (transcribed from the `APISpecific` class) -/

/-- `APISpecific.getUndestroyedObjectVUID`: the per-scope leak VUIDs; only the
`vulkan` target is defined, and only the two scopes (any other lookup raises
in the source, hence `Option`). -/
def getUndestroyedObjectVUID (targetApiName scope : String) : Option String :=
  if targetApiName == "vulkan" then
    if scope == "instance" then some "VUID-vkDestroyInstance-instance-00629"
    else if scope == "device" then some "VUID-vkDestroyDevice-device-00378"
    else none
  else none

/-- `APISpecific.IsImplicitlyDestroyed`'s per-target set of implicitly
destroyed handle types; only the `vulkan` target is defined (any other target
raises in the source, hence `Option`). -/
def implicitlyDestroyedSet (targetApiName : String) : Option (List String) :=
  if targetApiName == "vulkan" then some ["VkDisplayKHR", "VkDisplayModeKHR"]
  else none

/-- `APISpecific.AreAllocVUIDsEnabled`: `True` for `vulkan`; for any other
target the Python function falls through and returns `None` (falsy). -/
def areAllocVUIDsEnabled (targetApiName : String) : Option Bool :=
  if targetApiName == "vulkan" then some true else none

/-! ## The hand-maintained VUID override table (`self.manual_vuids`) -/

/-- The `manual_vuids` dictionary (values without the C string quoting). -/
def manualVuids : List (String × String) := [
  ("fence-compatalloc", "VUID-vkDestroyFence-fence-01121"),
  ("fence-nullalloc", "VUID-vkDestroyFence-fence-01122"),
  ("event-compatalloc", "VUID-vkDestroyEvent-event-01146"),
  ("event-nullalloc", "VUID-vkDestroyEvent-event-01147"),
  ("buffer-compatalloc", "VUID-vkDestroyBuffer-buffer-00923"),
  ("buffer-nullalloc", "VUID-vkDestroyBuffer-buffer-00924"),
  ("image-compatalloc", "VUID-vkDestroyImage-image-01001"),
  ("image-nullalloc", "VUID-vkDestroyImage-image-01002"),
  ("shaderModule-compatalloc", "VUID-vkDestroyShaderModule-shaderModule-01092"),
  ("shaderModule-nullalloc", "VUID-vkDestroyShaderModule-shaderModule-01093"),
  ("pipeline-compatalloc", "VUID-vkDestroyPipeline-pipeline-00766"),
  ("pipeline-nullalloc", "VUID-vkDestroyPipeline-pipeline-00767"),
  ("sampler-compatalloc", "VUID-vkDestroySampler-sampler-01083"),
  ("sampler-nullalloc", "VUID-vkDestroySampler-sampler-01084"),
  ("renderPass-compatalloc", "VUID-vkDestroyRenderPass-renderPass-00874"),
  ("renderPass-nullalloc", "VUID-vkDestroyRenderPass-renderPass-00875"),
  ("descriptorUpdateTemplate-compatalloc", "VUID-vkDestroyDescriptorUpdateTemplate-descriptorSetLayout-00356"),
  ("descriptorUpdateTemplate-nullalloc", "VUID-vkDestroyDescriptorUpdateTemplate-descriptorSetLayout-00357"),
  ("imageView-compatalloc", "VUID-vkDestroyImageView-imageView-01027"),
  ("imageView-nullalloc", "VUID-vkDestroyImageView-imageView-01028"),
  ("pipelineCache-compatalloc", "VUID-vkDestroyPipelineCache-pipelineCache-00771"),
  ("pipelineCache-nullalloc", "VUID-vkDestroyPipelineCache-pipelineCache-00772"),
  ("pipelineLayout-compatalloc", "VUID-vkDestroyPipelineLayout-pipelineLayout-00299"),
  ("pipelineLayout-nullalloc", "VUID-vkDestroyPipelineLayout-pipelineLayout-00300"),
  ("descriptorSetLayout-compatalloc", "VUID-vkDestroyDescriptorSetLayout-descriptorSetLayout-00284"),
  ("descriptorSetLayout-nullalloc", "VUID-vkDestroyDescriptorSetLayout-descriptorSetLayout-00285"),
  ("semaphore-compatalloc", "VUID-vkDestroySemaphore-semaphore-01138"),
  ("semaphore-nullalloc", "VUID-vkDestroySemaphore-semaphore-01139"),
  ("queryPool-compatalloc", "VUID-vkDestroyQueryPool-queryPool-00794"),
  ("queryPool-nullalloc", "VUID-vkDestroyQueryPool-queryPool-00795"),
  ("bufferView-compatalloc", "VUID-vkDestroyBufferView-bufferView-00937"),
  ("bufferView-nullalloc", "VUID-vkDestroyBufferView-bufferView-00938"),
  ("surface-compatalloc", "VUID-vkDestroySurfaceKHR-surface-01267"),
  ("surface-nullalloc", "VUID-vkDestroySurfaceKHR-surface-01268"),
  ("framebuffer-compatalloc", "VUID-vkDestroyFramebuffer-framebuffer-00893"),
  ("framebuffer-nullalloc", "VUID-vkDestroyFramebuffer-framebuffer-00894"),
  ("VkGraphicsPipelineCreateInfo-basePipelineHandle", "VUID-VkGraphicsPipelineCreateInfo-flags-07984"),
  ("VkComputePipelineCreateInfo-basePipelineHandle", "VUID-VkComputePipelineCreateInfo-flags-07984"),
  ("VkRayTracingPipelineCreateInfoNV-basePipelineHandle", "VUID-VkRayTracingPipelineCreateInfoNV-flags-07984"),
  ("VkRayTracingPipelineCreateInfoKHR-basePipelineHandle", "VUID-VkRayTracingPipelineCreateInfoKHR-flags-07984"),
  ("VkVideoSessionKHR-videoSession-compatalloc", "VUID-vkDestroyVideoSessionKHR-videoSession-07193"),
  ("VkVideoSessionKHR-videoSession-nullalloc", "VUID-vkDestroyVideoSessionKHR-videoSession-07194"),
  ("VkVideoSessionParametersKHR-videoSessionParameters-compatalloc", "VUID-vkDestroyVideoSessionParametersKHR-videoSessionParameters-07213"),
  ("VkVideoSessionParametersKHR-videoSessionParameters-nullalloc", "VUID-vkDestroyVideoSessionParametersKHR-videoSessionParameters-07214"),
  ("VkAccelerationStructureKHR-accelerationStructure-compatalloc", "VUID-vkDestroyAccelerationStructureKHR-accelerationStructure-02443"),
  ("VkAccelerationStructureKHR-accelerationStructure-nullalloc", "VUID-vkDestroyAccelerationStructureKHR-accelerationStructure-02444"),
  ("VkAccelerationStructureNV-accelerationStructure-compatalloc", "VUID-vkDestroyAccelerationStructureNV-accelerationStructure-03753"),
  ("VkAccelerationStructureNV-accelerationStructure-nullalloc", "VUID-vkDestroyAccelerationStructureNV-accelerationStructure-03754"),
  ("shader-compatalloc", "VUID-vkDestroyShaderEXT-pAllocator-08483"),
  ("shader-nullalloc", "VUID-vkDestroyShaderEXT-pAllocator-08484")]

/-- Python `self.manual_vuids.get(key, "kVUIDUndefined")`. -/
def manualVuidGet (key : String) : String :=
  match manualVuids.find? (fun p => p.1 == key) with
  | some p => p.2
  | none => kVUIDUndefined

/-- Modelled from the spec: the `getVUID` helper (from
`generators/generator_utils.py`, not under `src/`) looks a diagnostic
identifier up "from a static table of known identifiers, falling back to an
undefined placeholder identifier when no specific one is registered". -/
def getVUID (validVuids : List String) (key : String) : String :=
  if key ∈ validVuids then key else kVUIDUndefined

/-- `getAllocVUID`: the allocator-compatibility VUID for a destroy call's
handle parameter, looked up first by `name-allocType`, then by
`type-name-allocType`; everything is `kVUIDUndefined` when the target API has
no allocation-callback VUIDs (the Python `not None` branch). -/
def getAllocVUID (targetApiName : String) (param : Member) (allocType : String) : String :=
  if !((areAllocVUIDsEnabled targetApiName).getD false) then kVUIDUndefined
  else
    match manualVuids.find? (fun p => p.1 == param.name ++ "-" ++ allocType) with
    | some p => p.2
    | none =>
      match manualVuids.find? (fun p => p.1 == param.type ++ "-" ++ param.name ++ "-" ++ allocType) with
      | some p => p.2
      | none => kVUIDUndefined

/-! ## Create / destroy classification (`generateFunctionBody`, lines 516-517) -/

/-- `isCreate`: the command's name matches one of the creation patterns, or it
is a `vkGet` query whose last parameter is a pointer.  (On an empty parameter
list the Python `command.params[-1]` would raise; commands always have
parameters, and the embedding returns `false` there.) -/
def isCreate (c : Command) : Bool :=
  (["Create", "Allocate", "Enumerate", "RegisterDeviceEvent", "RegisterDisplayEvent",
    "AcquirePerformanceConfigurationINTEL"].any (fun x => strContains c.name x))
  || (strContains c.name "vkGet" && ((c.params.getLast?.map (fun p => p.pointer)).getD false))

/-- `isDestroy`: destroy/free/performance-configuration-release commands. -/
def isDestroy (c : Command) : Bool :=
  ["Destroy", "Free", "ReleasePerformanceConfigurationINTEL"].any (fun x => strContains c.name x)

/-- The claim's creation-call criterion, following the spec's words: "detected
by name patterns: creation, allocation, enumeration, or a query whose last
parameter is an out-pointer" (plus the event-registration patterns the claim
names).  Kept separate from `isCreate` so the two can be compared. -/
def isCreateClaimed (c : Command) : Bool :=
  (["Create", "Allocate", "Enumerate", "RegisterDeviceEvent", "RegisterDisplayEvent"].any
    (fun x => strContains c.name x))
  || (strContains c.name "vkGet" && ((c.params.getLast?.map (fun p => p.pointer)).getD false))

/-- The two-and-a-half pipeline-batch-creation name patterns of
`generateSource` line 352 / `generateFunctionBody` line 524. -/
def isCreatePipelinesName (name : String) : Bool :=
  strContains name "CreateGraphicsPipelines" || strContains name "CreateComputePipelines"
    || strContains name "CreateRayTracingPipelines"

/-- `isCreateShaders` of `generateFunctionBody` line 525. -/
def isCreateShadersName (name : String) : Bool :=
  strContains name "CreateShaders"

/-! ## The post-call success gate (`generateSource`, lines 344-353) -/

/-- The `failureCondition` expression emitted at the top of a generated
`PostCallRecord` body: the result is not `VK_SUCCESS`, nor `VK_INCOMPLETE`
for `EnumeratePhysicalDeviceGroups` commands, nor
`VK_ERROR_INCOMPATIBLE_SHADER_BINARY_EXT` for `CreateShadersEXT` commands. -/
def failureCondition (name : String) (r : VkResult) : Bool :=
  (r != VkResult.VK_SUCCESS)
  && (!(strContains name "EnumeratePhysicalDeviceGroups") || (r != VkResult.VK_INCOMPLETE))
  && (!(strContains name "CreateShadersEXT")
      || (r != VkResult.VK_ERROR_INCOMPATIBLE_SHADER_BINARY_EXT))

/-- A result accepted as success by the gate: the emitted
`if (failureCondition) return;` does not fire. -/
def acceptedAsSuccess (name : String) (r : VkResult) : Bool :=
  !(failureCondition name r)

/-- Whether the generated `PostCallRecord` returns at its top for result `r`:
the gate is emitted only for `VkResult`-returning commands and is skipped
entirely for the pipeline batch-creation commands. -/
def postGateReturns (c : Command) (r : VkResult) : Bool :=
  (c.returnType == "VkResult") && !(isCreatePipelinesName c.name) && failureCondition c.name r

/-! ## Recording semantics (`generateFunctionBody`, create/destroy paths) -/

/-- Modelled from the spec: `CreateObject` (runtime layer, not under `src/`)
"inserts one record" for the created handle (spec, Handle Registry `Insert`);
insertion order is kept so batch insertions are "in slot order". -/
def createObject (reg : Registry) (h : Nat) (t : String) : Registry :=
  reg ++ [⟨h, t⟩]

/-- Modelled from the spec: `RecordDestroyObject` (runtime layer, not under
`src/`) removes the record; "no-op (not an error) if absent" (spec, Handle
Registry `Remove`). -/
def recordDestroyObject (reg : Registry) (h : Nat) (t : String) : Registry :=
  reg.filter (fun r => !(r.handle == h && r.otype == t))

/-- The generated batch-creation loop body: for pipeline commands a null
entry is skipped (`continue`), for shader commands a null entry stops the
loop (`break`), otherwise every entry is inserted. -/
def batchInsert (pipelines shaders : Bool) (t : String) : List Nat → Registry → Registry
  | [], reg => reg
  | h :: rest, reg =>
    if pipelines && h == 0 then batchInsert pipelines shaders t rest reg
    else if shaders && h == 0 then reg
    else batchInsert pipelines shaders t rest (createObject reg h t)

/-- The values the generated `for (index = 0; index < count; index++)` loop
reads from the output array (out-of-range reads modelled as the null
handle). -/
def rangeVals (count : Nat) (hs : List Nat) : List Nat :=
  (List.range count).map (fun i => hs.getD i 0)

/-- The registry transformation performed by the generated `PostCallRecord`
body of command `c` when the driver reported `r`; `single` is the value
written through a single-handle out-pointer, `arr` the contents of a
batch-output array (`none` when the array pointer is null), `count` the
runtime value of the loop bound, and `groups` the physical-device-group
result array (`none` when null).  Mirrors `generateSource` lines 344-353 and
`generateFunctionBody` lines 522-561. -/
def postCallRecord (env : Env) (c : Command) (r : VkResult) (single : Nat)
    (arr : Option (List Nat)) (count : Nat) (groups : Option (List (List Nat)))
    (reg : Registry) : Registry :=
  if !(isCreate c) then reg
  else if postGateReturns c r then reg
  else
    match c.params.getLast? with
    | none => reg
    | some lastP =>
      if lastP.type ∈ env.handleNames then
        let pipelines := isCreatePipelinesName c.name
        let shaders := isCreateShadersName c.name
        if lastP.length.isSome then
          if pipelines && (r == VkResult.VK_ERROR_VALIDATION_FAILED_EXT) then reg
          else
            match arr with
            | none => reg
            | some hs => batchInsert pipelines shaders lastP.type (rangeVals count hs) reg
        else createObject reg single lastP.type
      else if lastP.type == "VkPhysicalDeviceGroupProperties" then
        -- Modelled from the spec: the loop calls the manually written
        -- `PostCallRecordEnumeratePhysicalDevices` (not under `src/`) once per
        -- group, which applies "the recording logic used for the simpler
        -- per-handle enumeration call": insert each physical device handle.
        match groups with
        | none => reg
        | some gs =>
          ((List.range count).map (fun i => gs.getD i [])).foldl
            (fun acc g => g.foldl (fun a h => createObject a h "VkPhysicalDevice") acc) reg
      else reg

/-! ## Destroy-path code generation (`generateFunctionBody`, lines 562-573) -/

/-- The parameter holding the handle being destroyed: the last parameter for
the INTEL performance-configuration release command, the second-to-last for
every other destroy/free command. -/
def destroyHandleParam (c : Command) : Option Member :=
  if strContains c.name "ReleasePerformanceConfigurationINTEL" then c.params.getLast?
  else c.params.reverse[1]?

/-- The allocator argument passed to `ValidateDestroyObject`: the literal
null allocator for the INTEL release command, the `pAllocator` parameter
otherwise. -/
def destroyAllocatorArg (c : Command) : String :=
  if strContains c.name "ReleasePerformanceConfigurationINTEL" then "nullptr" else "pAllocator"

/-- A `ValidateDestroyObject` invocation emitted into the pre-call validation
of a destroy command. -/
structure DestroyValidateCall where
  paramName : String
  otype : String
  allocatorArg : String
  compatallocVUID : String
  nullallocVUID : String
deriving DecidableEq, Repr

/-- A `RecordDestroyObject` invocation emitted into the pre-call record of a
destroy command. -/
structure DestroyRecordCall where
  paramName : String
  otype : String
deriving DecidableEq, Repr

/-- The `ValidateDestroyObject` calls a command's generated pre-call
validation performs (empty unless the command is a destroy command whose
selected parameter has a handle type). -/
def destroyPreCallValidate (targetApiName : String) (env : Env) (c : Command) :
    List DestroyValidateCall :=
  if isDestroy c then
    match destroyHandleParam c with
    | some hp =>
      if hp.type ∈ env.handleNames then
        [⟨hp.name, hp.type, destroyAllocatorArg c,
          getAllocVUID targetApiName hp "compatalloc", getAllocVUID targetApiName hp "nullalloc"⟩]
      else []
    | none => []
  else []

/-- The `RecordDestroyObject` calls a command's generated pre-call record
performs. -/
def destroyPreCallRecord (env : Env) (c : Command) : List DestroyRecordCall :=
  if isDestroy c then
    match destroyHandleParam c with
    | some hp => if hp.type ∈ env.handleNames then [⟨hp.name, hp.type⟩] else []
    | none => []
  else []

/-- The registry transformation of the generated `PreCallRecord` of a destroy
command, given the runtime value of the destroyed handle. -/
def preCallRecordDestroy (env : Env) (c : Command) (handleVal : Nat) (reg : Registry) : Registry :=
  if isDestroy c then
    match destroyHandleParam c with
    | some hp =>
      if hp.type ∈ env.handleNames then recordDestroyObject reg handleVal hp.type else reg
    | none => reg
  else reg

/-! ## Parent-linkage VUID selection (`validateObjects`, lines 416-445) -/

/-- The `parent_exception_list` of handle types whose parent linkage is not
validated. -/
def parentExceptionList : List String :=
  ["VkPhysicalDevice", "VkSwapchainKHR", "VkDisplayKHR", "VkSurfaceKHR",
   "VkDisplayModeKHR", "VkDebugReportCallbackEXT", "VkDebugUtilsMessengerEXT"]

/-- `self.vk.commands[parentName].alias if parentName in self.vk.commands else
None`, with the fallback to `parentName` applied (lines 409-410/430-431). -/
def resolveAlias (env : Env) (parentName : String) : String :=
  match env.commands.find? (fun c => c.name == parentName) with
  | some c => c.aliasName.getD parentName
  | none => parentName

/-- The parent-linkage VUID chosen for a handle member: `kVUIDUndefined` when
the member is the first of its list or its type is in the exception list;
the per-field `-parent` VUID when the list's first member is a `VkDevice`;
the `-commonparent` VUID when the list holds more than one handle-typed
member; inside a struct, the single hand-added `vkCreateImageView` VUID;
`kVUIDUndefined` otherwise. -/
def parentVUIDFor (env : Env) (members : List Member) (member : Member)
    (parentName topCommand : String) : String :=
  if member.type ∈ parentExceptionList then kVUIDUndefined
  else
    match members.head? with
    | none => kVUIDUndefined
    | some m0 =>
      if member = m0 then kVUIDUndefined
      else
        let parent := resolveAlias env parentName
        if m0.type == "VkDevice" then
          getVUID env.validVuids ("VUID-" ++ parent ++ "-" ++ member.name ++ "-parent")
        else if (members.filter (fun x => x.type ∈ env.handleNames)).length > 1 then
          getVUID env.validVuids ("VUID-" ++ parent ++ "-commonparent")
        else if topCommand != parentName then
          if topCommand == "vkCreateImageView" && member.name == "image" then
            "VUID-vkCreateImageView-image-09179"
          else kVUIDUndefined
        else kVUIDUndefined

/-- The `-parameter` VUID for a handle member (lines 409-413): the key is
looked up in the valid-VUID list, falling back to `kVUIDUndefined`. -/
def memberParamVUID (env : Env) (parentName : String) (m : Member) : String :=
  if ("VUID-" ++ resolveAlias env parentName ++ "-" ++ m.name ++ "-parameter") ∈ env.validVuids
  then "VUID-" ++ resolveAlias env parentName ++ "-" ++ m.name ++ "-parameter"
  else kVUIDUndefined

/-- The null-allowed flag passed to `ValidateObject` (lines 401-406). -/
def memberNullAllowed (m : Member) : Bool :=
  if m.noAutoValidity then true
  else if hasLength m then m.optionalPointer
  else m.optional

/-! ## Runtime values and the validation walk -/

/-- The runtime value backing a member during an intercepted call: a handle
value, a scalar (counts, flags, indices), a handle array (`none` when the
array pointer is null), an inline struct, a pointer to a struct (`none` when
null) or a struct array (`none` when null); struct field values are listed
positionally. -/
inductive Val where
  | vhandle (h : Nat)
  | vscalar (n : Int)
  | varr (a : Option (List Nat))
  | vstruct (fields : List Val)
  | vptr (fields : Option (List Val))
  | vsarr (elems : Option (List (List Val)))
deriving Repr

/-- One element of the dotted diagnostic location path. -/
inductive LocElem where
  | field (name : String)
  | fieldIdx (name : String) (i : Nat)
deriving DecidableEq, Repr

/-- A `ValidateObject` invocation performed by the generated pre-call
validation: the runtime handle value, the expected object type, the
null-allowed flag, the `-parameter` VUID, the parent VUID and the location
path. -/
structure VCall where
  value : Nat
  otype : String
  nullAllowed : Bool
  paramVUID : String
  parentVUID : String
  loc : List LocElem
deriving DecidableEq, Repr

/-- The handle value of a `Val` expected to be a handle. -/
def valHandle : Val → Nat
  | .vhandle h => h
  | _ => 0

/-- The runtime value of the named sibling field (used for array counts and
the `flags`/`basePipelineIndex` companions); 0 if absent or not a scalar. -/
def lookupScalar (mvs : List (Member × Val)) (nm : String) : Int :=
  match mvs.find? (fun p => p.1.name == nm) with
  | some (_, Val.vscalar n) => n
  | _ => 0

/-- The emitted C test `(flags & VK_PIPELINE_CREATE_DERIVATIVE_BIT)`:
`VkPipelineCreateFlags` is an unsigned 32-bit mask and the derivative bit is
`0x4`. -/
def derivativeBitSet (flags : Int) : Bool :=
  (flags.toNat &&& 4) != 0

/-- `structContainsObject`, fuelled against cyclic schemas (the Python code
guards only direct self-reference): does the struct (transitively) contain a
handle-typed member? -/
def structContainsObject (env : Env) : Nat → String → Bool
  | 0, _ => false
  | fuel + 1, sname =>
    match env.structs.find? (fun p => p.1 == sname) with
    | none => false
    | some (_, smembers) =>
      smembers.any (fun mem =>
        decide (mem.type ∈ env.handleNames)
        || ((env.structs.find? (fun p => p.1 == mem.type)).isSome
            && mem.type != sname && structContainsObject env fuel mem.type))

/-- One level of the recursive `validateObjects` walk (lines 391-507): emits
the `ValidateObject` calls for the member suffix `rest` of the current
aggregate level.  `mvs` is the full (member, value) list of the level (for
sibling lookups), `skipLast` is `some lastParam` at the top level of a
creation command (the exempted last parameter) and `none` otherwise;
`containsObj` decides `structContainsObject` and `recurse` performs the
descent into a nested aggregate (the callee's member/value list, its struct
name as the new parent, and the extended location). -/
def validateLevel (env : Env)
    (recurse : List (Member × Val) → String → List LocElem → List VCall)
    (containsObj : String → Bool)
    (mvs : List (Member × Val)) (skipLast : Option Member) (parentName topCommand : String)
    (loc : List LocElem) : List (Member × Val) → List VCall
  | [] => []
  | (m, v) :: rest' =>
    (if skipLast = some m then []
    else if m.type ∈ env.handleNames then
      if hasLength m then
        match v with
        | Val.varr (some hs) =>
          if (lookupScalar mvs (m.length.getD "")).toNat > 0 then
            (List.range (lookupScalar mvs (m.length.getD "")).toNat).map (fun i =>
              { value := hs.getD i 0, otype := m.type,
                nullAllowed := memberNullAllowed m,
                paramVUID := memberParamVUID env parentName m,
                parentVUID := parentVUIDFor env (mvs.map Prod.fst) m parentName topCommand,
                loc := loc ++ [LocElem.fieldIdx m.name i] })
          else []
        | _ => []
      else if strContains m.name "basePipelineHandle" then
        if derivativeBitSet (lookupScalar mvs "flags")
            && (lookupScalar mvs "basePipelineIndex" == -1) then
          [{ value := valHandle v, otype := m.type, nullAllowed := false,
             paramVUID := manualVuidGet (parentName ++ "-" ++ m.name),
             parentVUID := parentVUIDFor env (mvs.map Prod.fst) m parentName topCommand,
             loc := [] }]
        else []
      else
        [{ value := valHandle v, otype := m.type,
           nullAllowed := memberNullAllowed m,
           paramVUID := memberParamVUID env parentName m,
           parentVUID := parentVUIDFor env (mvs.map Prod.fst) m parentName topCommand,
           loc := loc ++ [LocElem.field m.name] }]
    else
      match env.structs.find? (fun p => p.1 == m.type) with
      | some (_, smembers) =>
        if containsObj m.type then
          if m.length.isSome then
            match v with
            | Val.vsarr (some elems) =>
              ((List.range (lookupScalar mvs (m.length.getD "")).toNat).map (fun i =>
                recurse (smembers.zip (elems.getD i [])) m.type
                  (loc ++ [LocElem.fieldIdx m.name i]))).flatten
            | _ => []
          else if m.pointer then
            match v with
            | Val.vptr (some fs) =>
              recurse (smembers.zip fs) m.type (loc ++ [LocElem.field m.name])
            | _ => []
          else
            match v with
            | Val.vstruct fs =>
              recurse (smembers.zip fs) m.type (loc ++ [LocElem.field m.name])
            | _ => []
        else []
      | none => [])
    ++ validateLevel env recurse containsObj mvs skipLast parentName topCommand loc rest'

/-- The semantics of the recursive `validateObjects` walk (lines 391-507): it
produces the `ValidateObject` calls the generated validation code performs.
`fuel` bounds the struct recursion depth: at fuel 0 no struct is entered
(`structContainsObject` is false there), and a descent into a nested
aggregate spends one unit. -/
def validateObjects (env : Env) : Nat → List (Member × Val) → List (Member × Val) →
    Option Member → String → String → List LocElem → List VCall
  | 0, mvs, rest, skipLast, parentName, topCommand, loc =>
    validateLevel env (fun _ _ _ => []) (structContainsObject env 0)
      mvs skipLast parentName topCommand loc rest
  | fuel + 1, mvs, rest, skipLast, parentName, topCommand, loc =>
    validateLevel env
      (fun sub subParent subLoc => validateObjects env fuel sub sub none subParent topCommand subLoc)
      (structContainsObject env (fuel + 1))
      mvs skipLast parentName topCommand loc rest

/-- The top-level walk over a command's parameters (`generateFunctionBody`
line 519): for creation commands the last parameter is exempted. -/
def validateCommandParams (env : Env) (fuel : Nat) (c : Command) (vals : List Val) :
    List VCall :=
  validateObjects env fuel (c.params.zip vals) (c.params.zip vals)
    (if isCreate c then c.params.getLast? else none) c.name c.name []

/-! ## Leak / teardown reporting (`generateSource`, lines 271-312) -/

/-- A handle type definition as in `vulkan_object.Handle`: name, whether it is
dispatchable, and its parent handle type (as declared in the XML handle
hierarchy). -/
inductive HandleDef where
  | mk (name : String) (dispatchable : Bool) (parent : Option HandleDef)

/-- The handle type's name. -/
def HandleDef.name : HandleDef → String
  | .mk n _ _ => n

/-- Whether the handle type is dispatchable. -/
def HandleDef.dispatchable : HandleDef → Bool
  | .mk _ d _ => d

/-- Structural decidable equality for `HandleDef` (the automatic deriving
does not handle the nested `Option`). -/
def HandleDef.decEq : (a b : HandleDef) → Decidable (a = b)
  | .mk n1 d1 none, .mk n2 d2 none =>
    if h1 : n1 = n2 then
      if h2 : d1 = d2 then isTrue (by subst h1; subst h2; rfl)
      else isFalse (fun hc => by injection hc with ha hb hp; exact h2 hb)
    else isFalse (fun hc => by injection hc with ha hb hp; exact h1 ha)
  | .mk n1 d1 (some p1), .mk n2 d2 (some p2) =>
    match HandleDef.decEq p1 p2 with
    | isTrue hp =>
      if h1 : n1 = n2 then
        if h2 : d1 = d2 then isTrue (by subst h1; subst h2; rw [hp])
        else isFalse (fun hc => by injection hc with ha hb hpp; exact h2 hb)
      else isFalse (fun hc => by injection hc with ha hb hpp; exact h1 ha)
    | isFalse hp =>
      isFalse (fun hc => by injection hc with ha hb hpp; exact hp (Option.some.inj hpp))
  | .mk _ _ none, .mk _ _ (some _) =>
    isFalse (fun hc => by injection hc with ha hb hp; exact Option.noConfusion hp)
  | .mk _ _ (some _), .mk _ _ none =>
    isFalse (fun hc => by injection hc with ha hb hp; exact Option.noConfusion hp)

instance : DecidableEq HandleDef := HandleDef.decEq

/-- `isParentDevice`: walk the parent chain looking for `VkDevice`. -/
def isParentDevice : HandleDef → Bool
  | .mk _ _ none => false
  | .mk _ _ (some p) => p.name == "VkDevice" || isParentDevice p

/-- The non-dispatchable handle types not rooted under `VkDevice` — the types
scanned at instance teardown (line 276). -/
def instanceScopeHandles (hs : List HandleDef) : List HandleDef :=
  hs.filter (fun h => !h.dispatchable && !(isParentDevice h))

/-- The non-dispatchable handle types rooted under `VkDevice` — the types
scanned at device teardown (line 295). -/
def deviceScopeHandles (hs : List HandleDef) : List HandleDef :=
  hs.filter (fun h => !h.dispatchable && isParentDevice h)

/-- A leak diagnostic: the leaked record and the per-scope VUID it is
reported under. -/
structure LeakDiag where
  handle : Nat
  otype : String
  vuid : String
deriving DecidableEq, Repr

/-- Modelled from the spec: `ReportLeakedInstanceObjects` /
`ReportLeakedDeviceObjects` (runtime layer, not under `src/`) report "every
remaining live record" of the given type "as a leak diagnostic (using a fixed
per-scope diagnostic identifier)". -/
def reportLeakedObjects (reg : Registry) (otype errorCode : String) : List LeakDiag :=
  (reg.filter (fun r => r.otype == otype)).map (fun r => ⟨r.handle, r.otype, errorCode⟩)

/-- Modelled from the spec: `DestroyUndestroyedObjects` (runtime layer, not
under `src/`) force-removes "every remaining record" of the given type. -/
def destroyUndestroyedObjects (reg : Registry) (otype : String) : Registry :=
  reg.filter (fun r => !(r.otype == otype))

/-- `ReportUndestroyedInstanceObjects` as generated (lines 271-282): one
report per instance-scope non-dispatchable type, with the reports of
implicitly destroyed types commented out; `none` when the target API is not
configured (the Python helper would raise). -/
def reportUndestroyedInstanceObjects (targetApiName : String) (hs : List HandleDef)
    (reg : Registry) : Option (List LeakDiag) := do
  let errorCode ← getUndestroyedObjectVUID targetApiName "instance"
  let impl ← implicitlyDestroyedSet targetApiName
  some (((instanceScopeHandles hs).map (fun h =>
    if h.name ∈ impl then [] else reportLeakedObjects reg h.name errorCode)).flatten)

/-- `ReportUndestroyedDeviceObjects` as generated (lines 284-301): the
command-buffer pseudo-type first, then one report per device-scope
non-dispatchable type, implicitly destroyed types commented out. -/
def reportUndestroyedDeviceObjects (targetApiName : String) (hs : List HandleDef)
    (reg : Registry) : Option (List LeakDiag) := do
  let errorCode ← getUndestroyedObjectVUID targetApiName "device"
  let impl ← implicitlyDestroyedSet targetApiName
  some ((if "VkCommandBuffer" ∈ impl then []
         else reportLeakedObjects reg "VkCommandBuffer" errorCode)
    ++ ((deviceScopeHandles hs).map (fun h =>
      if h.name ∈ impl then [] else reportLeakedObjects reg h.name errorCode)).flatten)

/-- `DestroyLeakedInstanceObjects` as generated (lines 303-306): force-destroy
every instance-scope non-dispatchable type (implicitly destroyed types
included). -/
def destroyLeakedInstanceObjects (hs : List HandleDef) (reg : Registry) : Registry :=
  (instanceScopeHandles hs).foldl (fun acc h => destroyUndestroyedObjects acc h.name) reg

/-- `DestroyLeakedDeviceObjects` as generated (lines 308-312): the
command-buffer pseudo-type first, then every device-scope non-dispatchable
type. -/
def destroyLeakedDeviceObjects (hs : List HandleDef) (reg : Registry) : Registry :=
  (deviceScopeHandles hs).foldl (fun acc h => destroyUndestroyedObjects acc h.name)
    (destroyUndestroyedObjects reg "VkCommandBuffer")

/-! ## Concrete instances (commands, environments, registries) -/

/-- Member constructor shorthand for the concrete instances below. -/
def mkMember (name type : String) (length : Option String) (pointer : Bool) : Member :=
  { name := name, type := type, length := length, pointer := pointer,
    optional := false, optionalPointer := false, noAutoValidity := false }

/-- `device` dispatch parameter. -/
def mDevice : Member := mkMember "device" "VkDevice" none false

/-- `pAllocator` parameter. -/
def mAllocator : Member := mkMember "pAllocator" "VkAllocationCallbacks" none true

/-- `buffer` parameter of `vkDestroyBuffer`. -/
def mBuffer : Member := mkMember "buffer" "VkBuffer" none false

/-- `queue` parameter. -/
def mQueue : Member := mkMember "queue" "VkQueue" none false

/-- `semaphore` parameter. -/
def mSemaphore : Member := mkMember "semaphore" "VkSemaphore" none false

/-- `swapchain` parameter (exception-list type). -/
def mSwapchain : Member := mkMember "swapchain" "VkSwapchainKHR" none false

/-- `pPipelines` batch output parameter. -/
def mPPipelines : Member := mkMember "pPipelines" "VkPipeline" (some "createInfoCount") true

/-- `pShaders` batch output parameter. -/
def mPShaders : Member := mkMember "pShaders" "VkShaderEXT" (some "createInfoCount") true

/-- `vkCreateSampler`. -/
def cmdCreateSampler : Command :=
  { name := "vkCreateSampler", returnType := "VkResult",
    params := [mDevice, mkMember "pCreateInfo" "VkSamplerCreateInfo" none true,
               mAllocator, mkMember "pSampler" "VkSampler" none true],
    aliasName := none }

/-- `vkCreateGraphicsPipelines`. -/
def cmdCreateGraphicsPipelines : Command :=
  { name := "vkCreateGraphicsPipelines", returnType := "VkResult",
    params := [mDevice, mkMember "pipelineCache" "VkPipelineCache" none false,
               mkMember "createInfoCount" "uint32_t" none false,
               mkMember "pCreateInfos" "VkGraphicsPipelineCreateInfo" (some "createInfoCount") true,
               mAllocator, mPPipelines],
    aliasName := none }

/-- `vkCreateShadersEXT`. -/
def cmdCreateShadersEXT : Command :=
  { name := "vkCreateShadersEXT", returnType := "VkResult",
    params := [mDevice, mkMember "createInfoCount" "uint32_t" none false,
               mkMember "pCreateInfos" "VkShaderCreateInfoEXT" (some "createInfoCount") true,
               mAllocator, mPShaders],
    aliasName := none }

/-- `vkAcquirePerformanceConfigurationINTEL` (its real signature: the last
parameter is an out-pointer, the name contains none of the claim's
creation/allocation/enumeration/event-registration patterns nor `vkGet`). -/
def cmdAcquirePerf : Command :=
  { name := "vkAcquirePerformanceConfigurationINTEL", returnType := "VkResult",
    params := [mDevice,
               mkMember "pAcquireInfo" "VkPerformanceConfigurationAcquireInfoINTEL" none true,
               mkMember "pConfiguration" "VkPerformanceConfigurationINTEL" none true],
    aliasName := none }

/-- `vkReleasePerformanceConfigurationINTEL`. -/
def cmdReleasePerf : Command :=
  { name := "vkReleasePerformanceConfigurationINTEL", returnType := "VkResult",
    params := [mDevice, mkMember "configuration" "VkPerformanceConfigurationINTEL" none false],
    aliasName := none }

/-- `vkDestroyBuffer`. -/
def cmdDestroyBuffer : Command :=
  { name := "vkDestroyBuffer", returnType := "void",
    params := [mDevice, mBuffer, mAllocator],
    aliasName := none }

/-- A small schema environment for the concrete instances. -/
def envW : Env :=
  { handleNames := ["VkDevice", "VkQueue", "VkSemaphore", "VkBuffer", "VkSampler",
                    "VkPipeline", "VkPipelineCache", "VkShaderEXT", "VkSwapchainKHR",
                    "VkPerformanceConfigurationINTEL"],
    structs := [],
    commands := [],
    validVuids := ["VUID-vkDestroyBuffer-buffer-parameter",
                   "VUID-vkDestroyBuffer-buffer-parent",
                   "VUID-vkQueueBindSparse-commonparent"] }

/-- The `flags` member of a pipeline create-info struct. -/
def mFlags : Member := mkMember "flags" "VkPipelineCreateFlags" none false

/-- The `basePipelineHandle` member of `VkGraphicsPipelineCreateInfo`. -/
def mBasePipelineHandle : Member := mkMember "basePipelineHandle" "VkPipeline" none false

/-- The `basePipelineIndex` member of `VkGraphicsPipelineCreateInfo`. -/
def mBasePipelineIndex : Member := mkMember "basePipelineIndex" "int32_t" none false

/-- A derivative-pipeline create-info instance: the derivative bit (0x4) is
set and `basePipelineIndex` is the sentinel -1. -/
def gpciDerivative : List (Member × Val) :=
  [(mFlags, Val.vscalar 4), (mBasePipelineHandle, Val.vhandle 7),
   (mBasePipelineIndex, Val.vscalar (-1))]

/-- Handle hierarchy: `VkInstance`. -/
def hdInstance : HandleDef := .mk "VkInstance" true none

/-- Handle hierarchy: `VkPhysicalDevice` (child of instance). -/
def hdPhysicalDevice : HandleDef := .mk "VkPhysicalDevice" true (some hdInstance)

/-- Handle hierarchy: `VkDevice` (child of physical device). -/
def hdDevice : HandleDef := .mk "VkDevice" true (some hdPhysicalDevice)

/-- Handle hierarchy: `VkQueue` (dispatchable, device-scoped). -/
def hdQueue : HandleDef := .mk "VkQueue" true (some hdDevice)

/-- Handle hierarchy: `VkSurfaceKHR` (non-dispatchable, instance-scoped). -/
def hdSurface : HandleDef := .mk "VkSurfaceKHR" false (some hdInstance)

/-- Handle hierarchy: `VkDisplayKHR` (non-dispatchable, instance-scoped via
the physical device, implicitly destroyed). -/
def hdDisplay : HandleDef := .mk "VkDisplayKHR" false (some hdPhysicalDevice)

/-- Handle hierarchy: `VkBuffer` (non-dispatchable, device-scoped). -/
def hdBuffer : HandleDef := .mk "VkBuffer" false (some hdDevice)

/-- A small handle-type table. -/
def handleListW : List HandleDef :=
  [hdInstance, hdPhysicalDevice, hdDevice, hdQueue, hdSurface, hdDisplay, hdBuffer]

/-- A registry with one live record in each interesting scope. -/
def regW : Registry :=
  [⟨1, "VkSurfaceKHR"⟩, ⟨2, "VkDisplayKHR"⟩, ⟨3, "VkBuffer"⟩, ⟨4, "VkCommandBuffer"⟩]

/-! ## Helper lemmas -/

theorem startsWithChars_append (n1 : List Char) :
    ∀ (l : List Char) (n2 : List Char),
      startsWithChars l (n1 ++ n2) = true → startsWithChars l n1 = true := by
  induction n1 with
  | nil => intro l n2 _; cases l <;> rfl
  | cons c cs ih =>
    intro l n2 h
    cases l with
    | nil => simp [startsWithChars] at h
    | cons a as =>
      simp only [List.cons_append, startsWithChars, Bool.and_eq_true] at h ⊢
      exact ⟨h.1, ih as n2 h.2⟩

theorem containsChars_append (l n1 n2 : List Char)
    (h : containsChars l (n1 ++ n2) = true) : containsChars l n1 = true := by
  induction l with
  | nil =>
    cases n1 with
    | nil => rfl
    | cons c cs => simp [containsChars, startsWithChars] at h
  | cons a as ih =>
    simp only [containsChars, Bool.or_eq_true] at h ⊢
    cases h with
    | inl h => exact Or.inl (startsWithChars_append n1 _ n2 h)
    | inr h => exact Or.inr (ih h)

/-- If `full` spells `n1` followed by `n2`, a string containing `full`
contains `n1`. -/
theorem strContains_mono (s n1 n2 full : String) (hfull : full.data = n1.data ++ n2.data)
    (h : strContains s full = true) : strContains s n1 = true := by
  unfold strContains at h ⊢
  rw [hfull] at h
  exact containsChars_append s.data n1.data n2.data h

theorem isCreate_of_contains_Create (c : Command) (h : strContains c.name "Create" = true) :
    isCreate c = true := by
  simp [isCreate, h]

theorem isCreate_of_pipelines (c : Command) (h : isCreatePipelinesName c.name = true) :
    isCreate c = true := by
  apply isCreate_of_contains_Create
  simp only [isCreatePipelinesName, Bool.or_eq_true] at h
  rcases h with (h | h) | h
  · exact strContains_mono c.name "Create" "GraphicsPipelines" "CreateGraphicsPipelines" (by decide) h
  · exact strContains_mono c.name "Create" "ComputePipelines" "CreateComputePipelines" (by decide) h
  · exact strContains_mono c.name "Create" "RayTracingPipelines" "CreateRayTracingPipelines" (by decide) h

theorem isCreate_of_shaders (c : Command) (h : isCreateShadersName c.name = true) :
    isCreate c = true := by
  apply isCreate_of_contains_Create
  exact strContains_mono c.name "Create" "Shaders" "CreateShaders" (by decide) h

theorem strContains_CreateShaders_of_EXT (s : String)
    (h : strContains s "CreateShadersEXT" = true) : strContains s "CreateShaders" = true :=
  strContains_mono s "CreateShaders" "EXT" "CreateShadersEXT" (by decide) h

theorem postCallRecord_of_gate (env : Env) (c : Command) (r : VkResult) (single : Nat)
    (arr : Option (List Nat)) (count : Nat) (groups : Option (List (List Nat)))
    (reg : Registry) (h : postGateReturns c r = true) :
    postCallRecord env c r single arr count groups reg = reg := by
  unfold postCallRecord
  rw [h]
  simp

theorem batchInsert_pipelines (t : String) (hs : List Nat) (reg : Registry) :
    batchInsert true false t hs reg
      = reg ++ (hs.filter (fun h => h != 0)).map (fun h => ⟨h, t⟩) := by
  induction hs generalizing reg with
  | nil => simp [batchInsert]
  | cons h tl ih =>
    by_cases h0 : h = 0
    · subst h0
      simp [batchInsert, ih, List.filter]
    · have hb : (h != 0) = true := by simpa using h0
      simp [batchInsert, h0, hb, ih, createObject, List.filter, List.append_assoc]

theorem batchInsert_shaders (t : String) (hs : List Nat) (reg : Registry) :
    batchInsert false true t hs reg
      = reg ++ (hs.takeWhile (fun h => h != 0)).map (fun h => ⟨h, t⟩) := by
  induction hs generalizing reg with
  | nil => simp [batchInsert]
  | cons h tl ih =>
    by_cases h0 : h = 0
    · subst h0
      simp [batchInsert, List.takeWhile]
    · have hb : (h != 0) = true := by simpa using h0
      simp [batchInsert, h0, hb, ih, createObject, List.takeWhile, List.append_assoc]

theorem rangeVals_self (hs : List Nat) : rangeVals hs.length hs = hs := by
  induction hs with
  | nil => rfl
  | cons h tl ih =>
    unfold rangeVals at ih ⊢
    rw [List.length_cons, List.range_succ_eq_map, List.map_cons, List.map_map]
    have hcomp : ((fun i => (h :: tl).getD i 0) ∘ Nat.succ) = fun i => tl.getD i 0 := by
      funext i
      simp
    rw [hcomp, ih]
    simp

theorem mem_foldl_destroy (l : List HandleDef) (reg : Registry) (r : ObjRecord) :
    (r ∈ l.foldl (fun acc h => destroyUndestroyedObjects acc h.name) reg)
      ↔ r ∈ reg ∧ ∀ h ∈ l, r.otype ≠ h.name := by
  induction l generalizing reg with
  | nil => simp
  | cons hd tl ih =>
    rw [List.foldl_cons, ih]
    simp only [destroyUndestroyedObjects, List.mem_filter, List.mem_cons]
    constructor
    · rintro ⟨⟨hreg, hne⟩, hall⟩
      refine ⟨hreg, ?_⟩
      rintro h (rfl | hmem)
      · intro hc
        rw [hc] at hne
        simp at hne
      · exact hall h hmem
    · rintro ⟨hreg, hall⟩
      refine ⟨⟨hreg, ?_⟩, fun h hmem => hall h (Or.inr hmem)⟩
      have hx := hall hd (Or.inl rfl)
      simpa using hx

/-! ## Claim theorems -/

/-- C1: for every create command whose return type is a result code, when the
reported result is not a success code (and, for the enumeration commands that
accept it, not `VK_INCOMPLETE`), the generated post-call recording returns
before performing any registry mutation — pipeline and shader batch-creation
commands excepted — so no `CreateObject` insertion occurs and the registry is
unchanged. -/
theorem c1_failure_no_registry_mutation (env : Env) (c : Command) (r : VkResult)
    (single : Nat) (arr : Option (List Nat)) (count : Nat)
    (groups : Option (List (List Nat))) (reg : Registry)
    (hcreate : isCreate c = true)
    (hret : c.returnType = "VkResult")
    (hpipe : isCreatePipelinesName c.name = false)
    (hshad : strContains c.name "CreateShaders" = false)
    (hfail : r ≠ VkResult.VK_SUCCESS)
    (hinc : strContains c.name "EnumeratePhysicalDeviceGroups" = true →
      r ≠ VkResult.VK_INCOMPLETE) :
    postCallRecord env c r single arr count groups reg = reg := by
  apply postCallRecord_of_gate
  have hsx : strContains c.name "CreateShadersEXT" = false := by
    by_cases hx : strContains c.name "CreateShadersEXT" = true
    · exact absurd (strContains_CreateShaders_of_EXT c.name hx) (by simp [hshad])
    · simpa using hx
  unfold postGateReturns failureCondition
  cases hg : strContains c.name "EnumeratePhysicalDeviceGroups"
  · simp [hret, hpipe, hsx, hg, hfail]
  · simp [hret, hpipe, hsx, hg, hfail, hinc hg]

/-- C1 witness: a failed `vkCreateSampler` changes nothing in a registry
holding one unrelated buffer record. -/
theorem c1_witness :
    postCallRecord envW cmdCreateSampler VkResult.VK_ERROR_OUT_OF_HOST_MEMORY 7 none 0 none
      [⟨5, "VkBuffer"⟩] = [⟨5, "VkBuffer"⟩] :=
  c1_failure_no_registry_mutation envW cmdCreateSampler VkResult.VK_ERROR_OUT_OF_HOST_MEMORY
    7 none 0 none [⟨5, "VkBuffer"⟩] (by decide) rfl (by decide) (by decide)
    (by decide) (by decide)

/-- C2 counterexample: the gate accepts `VK_INCOMPLETE` only for commands
whose name contains `EnumeratePhysicalDeviceGroups`; for any other
enumeration command name (here a hypothetical extension enumeration) the gate
rejects `VK_INCOMPLETE`, refuting "for every enumeration call". -/
theorem c2_counterexample :
    strContains "vkEnumerateFoosEXT" "Enumerate" = true ∧
      acceptedAsSuccess "vkEnumerateFoosEXT" VkResult.VK_INCOMPLETE = false := by decide

/-- C2 (amended): `VK_INCOMPLETE` is accepted as success by the post-call
recording gate exactly for commands whose name contains
`EnumeratePhysicalDeviceGroups`, and
`VK_ERROR_INCOMPATIBLE_SHADER_BINARY_EXT` is accepted exactly for commands
whose name contains `CreateShadersEXT`; the gate blocks recording exactly
when a `VkResult`-returning non-pipeline command's result is not accepted. -/
theorem c2_amended_gate_acceptance (name : String) (c : Command) (r : VkResult) :
    (acceptedAsSuccess name VkResult.VK_INCOMPLETE
        = strContains name "EnumeratePhysicalDeviceGroups")
    ∧ (acceptedAsSuccess name VkResult.VK_ERROR_INCOMPATIBLE_SHADER_BINARY_EXT
        = strContains name "CreateShadersEXT")
    ∧ (postGateReturns c r
        = ((c.returnType == "VkResult") && !(isCreatePipelinesName c.name)
            && !(acceptedAsSuccess c.name r))) := by
  refine ⟨?_, ?_, ?_⟩
  · unfold acceptedAsSuccess failureCondition
    cases hg : strContains name "EnumeratePhysicalDeviceGroups" <;>
      cases hsh : strContains name "CreateShadersEXT" <;> decide
  · unfold acceptedAsSuccess failureCondition
    cases hg : strContains name "EnumeratePhysicalDeviceGroups" <;>
      cases hsh : strContains name "CreateShadersEXT" <;> decide
  · simp [postGateReturns, acceptedAsSuccess, Bool.not_not]

/-- C3 counterexample: the claim says pipeline batch creation is "exempt from
the overall success gate" and always inserts one record per non-null output
slot; but on `VK_ERROR_VALIDATION_FAILED_EXT` the generated pipeline
recording returns early, inserting 0 records although the output array
`[1, 0, 2]` has 2 non-null entries. -/
theorem c3_counterexample :
    postCallRecord envW cmdCreateGraphicsPipelines VkResult.VK_ERROR_VALIDATION_FAILED_EXT 0
        (some [1, 0, 2]) 3 none [] = []
    ∧ (([1, 0, 2] : List Nat).filter (fun h => h != 0)).length = 2 := by decide

/-- C3 (amended): except on a `VK_ERROR_VALIDATION_FAILED_EXT` result (which
returns early), pipeline batch recording is gated per element — a null entry
is skipped and iteration continues, so exactly the non-null entries are
inserted in slot order; shader batch recording (under an accepted result)
stops at the first null entry, inserting exactly the non-null prefix. -/
theorem c3_amended_batch_recording (env : Env) (c : Command) (r : VkResult)
    (lastP : Member) (hs : List Nat) (reg : Registry) (single : Nat) (count : Nat)
    (groups : Option (List (List Nat)))
    (hlast : c.params.getLast? = some lastP)
    (hhandle : lastP.type ∈ env.handleNames)
    (harr : lastP.length.isSome = true)
    (hcount : count = hs.length) :
    (isCreatePipelinesName c.name = true → isCreateShadersName c.name = false →
      r ≠ VkResult.VK_ERROR_VALIDATION_FAILED_EXT →
      postCallRecord env c r single (some hs) count groups reg
        = reg ++ (hs.filter (fun h => h != 0)).map (fun h => ⟨h, lastP.type⟩))
    ∧ (isCreateShadersName c.name = true → isCreatePipelinesName c.name = false →
      failureCondition c.name r = false →
      postCallRecord env c r single (some hs) count groups reg
        = reg ++ (hs.takeWhile (fun h => h != 0)).map (fun h => ⟨h, lastP.type⟩)) := by
  subst hcount
  constructor
  · intro hp hsh hr
    have hc : isCreate c = true := isCreate_of_pipelines c hp
    have hrb : (r == VkResult.VK_ERROR_VALIDATION_FAILED_EXT) = false := by simpa using hr
    rw [← batchInsert_pipelines lastP.type hs reg, ← rangeVals_self hs]
    simp [postCallRecord, hc, postGateReturns, hp, hsh, hlast, hhandle, harr, hrb,
      rangeVals_self]
  · intro hsh hp hfc
    have hc : isCreate c = true := isCreate_of_shaders c hsh
    rw [← batchInsert_shaders lastP.type hs reg, ← rangeVals_self hs]
    simp [postCallRecord, hc, postGateReturns, hp, hsh, hfc, hlast, hhandle, harr,
      rangeVals_self]

/-- C3 witness: a pipeline batch with output `[1, 0, 2]` records exactly the
two non-null pipelines; a shader batch with the same output under the
accepted incompatible-binary result records only the prefix `[1]`. -/
theorem c3_witness :
    postCallRecord envW cmdCreateGraphicsPipelines VkResult.VK_ERROR_OUT_OF_HOST_MEMORY 0
        (some [1, 0, 2]) 3 none [] = [⟨1, "VkPipeline"⟩, ⟨2, "VkPipeline"⟩]
    ∧ postCallRecord envW cmdCreateShadersEXT
        VkResult.VK_ERROR_INCOMPATIBLE_SHADER_BINARY_EXT 0 (some [1, 0, 2]) 3 none []
        = [⟨1, "VkShaderEXT"⟩] := by
  constructor
  · have hx := (c3_amended_batch_recording envW cmdCreateGraphicsPipelines
      VkResult.VK_ERROR_OUT_OF_HOST_MEMORY mPPipelines [1, 0, 2] [] 0 3 none (by decide)
      (by decide) (by decide) (by decide)).1 (by decide) (by decide) (by decide)
    rw [hx]
    decide
  · have hx := (c3_amended_batch_recording envW cmdCreateShadersEXT
      VkResult.VK_ERROR_INCOMPATIBLE_SHADER_BINARY_EXT mPShaders [1, 0, 2] [] 0 3 none
      (by decide) (by decide) (by decide) (by decide)).2 (by decide) (by decide) (by decide)
    rw [hx]
    decide

/-- C4: a parameter's parent-linkage VUID is skipped (left undefined) when
the parameter is the call's first argument or its type is in the fixed
exception list; otherwise, when the first parameter is a `VkDevice` the
per-field `-parent` identifier is used, and when the first parameter is not
the device and the call has two or more handle-typed parameters the
`-commonparent` identifier is used instead. -/
theorem c4_parent_vuid_selection (env : Env) (m0 m : Member) (rest : List Member)
    (cname : String) :
    ((m.type ∈ parentExceptionList ∨ m = m0) →
      parentVUIDFor env (m0 :: rest) m cname cname = kVUIDUndefined)
    ∧ (m.type ∉ parentExceptionList → m ≠ m0 → m0.type = "VkDevice" →
      parentVUIDFor env (m0 :: rest) m cname cname
        = getVUID env.validVuids
            ("VUID-" ++ resolveAlias env cname ++ "-" ++ m.name ++ "-parent"))
    ∧ (m.type ∉ parentExceptionList → m ≠ m0 → m0.type ≠ "VkDevice" →
      ((m0 :: rest).filter (fun x => x.type ∈ env.handleNames)).length > 1 →
      parentVUIDFor env (m0 :: rest) m cname cname
        = getVUID env.validVuids ("VUID-" ++ resolveAlias env cname ++ "-commonparent")) := by
  refine ⟨?_, ?_, ?_⟩
  · rintro (hexc | rfl)
    · simp [parentVUIDFor, hexc]
    · by_cases hexc : m.type ∈ parentExceptionList <;> simp [parentVUIDFor, hexc]
  · intro hexc hne hdev
    have hb : (m0.type == "VkDevice") = true := by simpa using hdev
    simp [parentVUIDFor, hexc, hne, hb]
  · intro hexc hne hdev hlen
    have hb : (m0.type == "VkDevice") = false := by simpa using hdev
    simp [parentVUIDFor, hexc, hne, hb, hlen]

/-- C4 witness: `vkDestroyBuffer`'s `buffer` gets the `-parent` identifier
(device-first call); a queue-first two-handle call gets `-commonparent`; a
swap-chain parameter (exception list) is skipped. -/
theorem c4_witness :
    parentVUIDFor envW [mDevice, mBuffer] mBuffer "vkDestroyBuffer" "vkDestroyBuffer"
      = "VUID-vkDestroyBuffer-buffer-parent"
    ∧ parentVUIDFor envW [mQueue, mSemaphore] mSemaphore "vkQueueBindSparse" "vkQueueBindSparse"
      = "VUID-vkQueueBindSparse-commonparent"
    ∧ parentVUIDFor envW [mDevice, mSwapchain] mSwapchain "vkDestroySwapchainKHR"
        "vkDestroySwapchainKHR" = kVUIDUndefined := by
  refine ⟨?_, ?_, ?_⟩
  · have hx := (c4_parent_vuid_selection envW mDevice mBuffer [mBuffer] "vkDestroyBuffer").2.1
      (by decide) (by decide) rfl
    rw [hx]
    decide
  · have hx := (c4_parent_vuid_selection envW mQueue mSemaphore [mSemaphore]
      "vkQueueBindSparse").2.2 (by decide) (by decide) (by decide) (by decide)
    rw [hx]
    decide
  · exact (c4_parent_vuid_selection envW mDevice mSwapchain [mSwapchain]
      "vkDestroySwapchainKHR").1 (Or.inl (by decide))

/-- C8: the allocator-compatibility VUIDs of a destroy call are drawn from
the hand-maintained table by first looking up `name-allocType`, then
`type-name-allocType`, falling back to the undefined placeholder; and when
the target API variant has no allocation-callback VUIDs, both lookups yield
the undefined placeholder unconditionally. -/
theorem c8_alloc_vuid_lookup (api : String) (p : Member) (allocType : String) :
    (api ≠ "vulkan" → getAllocVUID api p allocType = kVUIDUndefined)
    ∧ (∀ v, manualVuids.find? (fun q => q.1 == p.name ++ "-" ++ allocType) = some v →
        getAllocVUID "vulkan" p allocType = v.2)
    ∧ (∀ v, manualVuids.find? (fun q => q.1 == p.name ++ "-" ++ allocType) = none →
        manualVuids.find? (fun q => q.1 == p.type ++ "-" ++ p.name ++ "-" ++ allocType)
          = some v →
        getAllocVUID "vulkan" p allocType = v.2)
    ∧ (manualVuids.find? (fun q => q.1 == p.name ++ "-" ++ allocType) = none →
        manualVuids.find? (fun q => q.1 == p.type ++ "-" ++ p.name ++ "-" ++ allocType)
          = none →
        getAllocVUID api p allocType = kVUIDUndefined) := by
  refine ⟨?_, ?_, ?_, ?_⟩
  · intro hapi
    have hb : (api == "vulkan") = false := by simpa using hapi
    simp [getAllocVUID, areAllocVUIDsEnabled, hb]
  · intro v h1
    simp [getAllocVUID, areAllocVUIDsEnabled, h1]
  · intro v h1 h2
    simp [getAllocVUID, areAllocVUIDsEnabled, h1, h2]
  · intro h1 h2
    by_cases hapi : api = "vulkan"
    · subst hapi
      simp [getAllocVUID, areAllocVUIDsEnabled, h1, h2]
    · have hb : (api == "vulkan") = false := by simpa using hapi
      simp [getAllocVUID, areAllocVUIDsEnabled, hb]

/-- C8 witness: the fence VUID comes from the name key, the video-session
VUID from the type+name key, an unregistered pair falls back to the
placeholder, and a non-vulkan target always yields the placeholder. -/
theorem c8_witness :
    getAllocVUID "vulkan" (mkMember "fence" "VkFence" none false) "compatalloc"
      = "VUID-vkDestroyFence-fence-01121"
    ∧ getAllocVUID "vulkan" (mkMember "videoSession" "VkVideoSessionKHR" none false)
        "compatalloc" = "VUID-vkDestroyVideoSessionKHR-videoSession-07193"
    ∧ getAllocVUID "vulkan" (mkMember "instance" "VkInstance" none false) "compatalloc"
      = kVUIDUndefined
    ∧ getAllocVUID "vulkansc" (mkMember "fence" "VkFence" none false) "compatalloc"
      = kVUIDUndefined := by
  refine ⟨?_, ?_, ?_, ?_⟩
  · exact (c8_alloc_vuid_lookup "vulkan" (mkMember "fence" "VkFence" none false)
      "compatalloc").2.1 ("fence-compatalloc", "VUID-vkDestroyFence-fence-01121") (by decide)
  · exact (c8_alloc_vuid_lookup "vulkan" (mkMember "videoSession" "VkVideoSessionKHR" none false)
      "compatalloc").2.2.1
      ("VkVideoSessionKHR-videoSession-compatalloc", "VUID-vkDestroyVideoSessionKHR-videoSession-07193")
      (by decide) (by decide)
  · exact (c8_alloc_vuid_lookup "vulkan" (mkMember "instance" "VkInstance" none false)
      "compatalloc").2.2.2 (by decide) (by decide)
  · exact (c8_alloc_vuid_lookup "vulkansc" (mkMember "fence" "VkFence" none false)
      "compatalloc").1 (by decide)

/-- C10: for a destroy/free command the validated and pre-call-recorded
handle is the second-to-last parameter with the `pAllocator` argument,
except the INTEL performance-configuration release command, which uses the
last parameter and a null allocator; the registry removal is emitted in the
pre-call record phase, and the post-call phase of a pure destroy command
leaves the registry unchanged. -/
theorem c10_destroy_param_selection (api : String) (env : Env) (c : Command) (hp : Member)
    (hdes : isDestroy c = true)
    (hsel : destroyHandleParam c = some hp)
    (hhandle : hp.type ∈ env.handleNames) :
    (strContains c.name "ReleasePerformanceConfigurationINTEL" = false →
      c.params.reverse[1]? = some hp ∧ destroyAllocatorArg c = "pAllocator")
    ∧ (strContains c.name "ReleasePerformanceConfigurationINTEL" = true →
      c.params.getLast? = some hp ∧ destroyAllocatorArg c = "nullptr")
    ∧ destroyPreCallValidate api env c
        = [⟨hp.name, hp.type, destroyAllocatorArg c,
            getAllocVUID api hp "compatalloc", getAllocVUID api hp "nullalloc"⟩]
    ∧ destroyPreCallRecord env c = [⟨hp.name, hp.type⟩]
    ∧ (∀ hv reg, preCallRecordDestroy env c hv reg = recordDestroyObject reg hv hp.type)
    ∧ (isCreate c = false → ∀ r single arr count groups reg,
        postCallRecord env c r single arr count groups reg = reg) := by
  refine ⟨?_, ?_, ?_, ?_, ?_, ?_⟩
  · intro hrel
    rw [destroyHandleParam, hrel] at hsel
    simp only [Bool.false_eq_true, if_false] at hsel
    exact ⟨hsel, by simp [destroyAllocatorArg, hrel]⟩
  · intro hrel
    rw [destroyHandleParam, hrel] at hsel
    simp only [if_true] at hsel
    exact ⟨hsel, by simp [destroyAllocatorArg, hrel]⟩
  · simp [destroyPreCallValidate, hdes, hsel, hhandle]
  · simp [destroyPreCallRecord, hdes, hsel, hhandle]
  · intro hv reg
    simp [preCallRecordDestroy, hdes, hsel, hhandle]
  · intro hnc r single arr count groups reg
    simp [postCallRecord, hnc]

/-- C10 witness: `vkDestroyBuffer` validates/records its second-to-last
parameter `buffer` with `pAllocator` and the buffer alloc VUIDs;
`vkReleasePerformanceConfigurationINTEL` uses its last parameter with a null
allocator. -/
theorem c10_witness :
    destroyPreCallValidate "vulkan" envW cmdDestroyBuffer
      = [⟨"buffer", "VkBuffer", "pAllocator", "VUID-vkDestroyBuffer-buffer-00923",
          "VUID-vkDestroyBuffer-buffer-00924"⟩]
    ∧ destroyPreCallRecord envW cmdDestroyBuffer = [⟨"buffer", "VkBuffer"⟩]
    ∧ destroyPreCallValidate "vulkan" envW cmdReleasePerf
      = [⟨"configuration", "VkPerformanceConfigurationINTEL", "nullptr",
          kVUIDUndefined, kVUIDUndefined⟩]
    ∧ preCallRecordDestroy envW cmdDestroyBuffer 3
        [⟨3, "VkBuffer"⟩, ⟨9, "VkImage"⟩] = [⟨9, "VkImage"⟩] := by
  refine ⟨?_, ?_, ?_, ?_⟩
  · have hx := (c10_destroy_param_selection "vulkan" envW cmdDestroyBuffer mBuffer
      (by decide) (by decide) (by decide)).2.2.1
    rw [hx]
    decide
  · exact (c10_destroy_param_selection "vulkan" envW cmdDestroyBuffer mBuffer
      (by decide) (by decide) (by decide)).2.2.2.1
  · have hx := (c10_destroy_param_selection "vulkan" envW cmdReleasePerf
      (mkMember "configuration" "VkPerformanceConfigurationINTEL" none false)
      (by decide) (by decide) (by decide)).2.2.1
    rw [hx]
    decide
  · have hx := (c10_destroy_param_selection "vulkan" envW cmdDestroyBuffer mBuffer
      (by decide) (by decide) (by decide)).2.2.2.2.1 3 [⟨3, "VkBuffer"⟩, ⟨9, "VkImage"⟩]
    rw [hx]
    decide

theorem reportUndestroyedInstanceObjects_vulkan (hs : List HandleDef) (reg : Registry) :
    reportUndestroyedInstanceObjects "vulkan" hs reg
      = some (((instanceScopeHandles hs).map (fun h =>
          if h.name ∈ ["VkDisplayKHR", "VkDisplayModeKHR"] then []
          else reportLeakedObjects reg h.name "VUID-vkDestroyInstance-instance-00629")).flatten) :=
  rfl

theorem reportUndestroyedDeviceObjects_vulkan (hs : List HandleDef) (reg : Registry) :
    reportUndestroyedDeviceObjects "vulkan" hs reg
      = some ((if ("VkCommandBuffer" : String) ∈ ["VkDisplayKHR", "VkDisplayModeKHR"] then []
          else reportLeakedObjects reg "VkCommandBuffer" "VUID-vkDestroyDevice-device-00378")
        ++ ((deviceScopeHandles hs).map (fun h =>
          if h.name ∈ ["VkDisplayKHR", "VkDisplayModeKHR"] then []
          else reportLeakedObjects reg h.name "VUID-vkDestroyDevice-device-00378")).flatten) :=
  rfl

/-- C5: at scope teardown every remaining live record of every
non-dispatchable handle type in scope is reported as a leak under the fixed
per-scope identifier (instance `...-00629`, device `...-00378`, the device
scan also covering the command-buffer pseudo-type), except the implicitly
destroyed types (`VkDisplayKHR`, `VkDisplayModeKHR`), which are excluded
from reporting but still force-destroyed, so the in-scope registry returns
to empty. -/
theorem c5_teardown_leak_reporting (hs : List HandleDef) (reg : Registry)
    (ds es : List LeakDiag)
    (hinst : reportUndestroyedInstanceObjects "vulkan" hs reg = some ds)
    (hdev : reportUndestroyedDeviceObjects "vulkan" hs reg = some es) :
    (∀ d ∈ ds, d.vuid = "VUID-vkDestroyInstance-instance-00629"
      ∧ d.otype ∉ ["VkDisplayKHR", "VkDisplayModeKHR"])
    ∧ (∀ r ∈ reg, ∀ h ∈ instanceScopeHandles hs, r.otype = h.name →
        h.name ∉ ["VkDisplayKHR", "VkDisplayModeKHR"] →
        (⟨r.handle, r.otype, "VUID-vkDestroyInstance-instance-00629"⟩ : LeakDiag) ∈ ds)
    ∧ (∀ d ∈ es, d.vuid = "VUID-vkDestroyDevice-device-00378"
      ∧ d.otype ∉ ["VkDisplayKHR", "VkDisplayModeKHR"])
    ∧ (∀ r ∈ reg, r.otype = "VkCommandBuffer" →
        (⟨r.handle, r.otype, "VUID-vkDestroyDevice-device-00378"⟩ : LeakDiag) ∈ es)
    ∧ (∀ r ∈ reg, ∀ h ∈ deviceScopeHandles hs, r.otype = h.name →
        h.name ∉ ["VkDisplayKHR", "VkDisplayModeKHR"] →
        (⟨r.handle, r.otype, "VUID-vkDestroyDevice-device-00378"⟩ : LeakDiag) ∈ es)
    ∧ (∀ r ∈ destroyLeakedInstanceObjects hs reg, ∀ h ∈ instanceScopeHandles hs,
        r.otype ≠ h.name)
    ∧ (∀ r ∈ destroyLeakedDeviceObjects hs reg,
        r.otype ≠ "VkCommandBuffer" ∧ ∀ h ∈ deviceScopeHandles hs, r.otype ≠ h.name) := by
  rw [reportUndestroyedInstanceObjects_vulkan] at hinst
  rw [reportUndestroyedDeviceObjects_vulkan] at hdev
  have hds := Option.some.inj hinst
  have hes := Option.some.inj hdev
  subst hds
  subst hes
  have hcb : ¬(("VkCommandBuffer" : String) ∈ ["VkDisplayKHR", "VkDisplayModeKHR"]) := by
    decide
  refine ⟨?_, ?_, ?_, ?_, ?_, ?_, ?_⟩
  · intro d hd
    simp only [List.mem_flatten, List.mem_map] at hd
    obtain ⟨l, ⟨h, hmem, hl⟩, hdl⟩ := hd
    subst hl
    by_cases himpl : h.name ∈ (["VkDisplayKHR", "VkDisplayModeKHR"] : List String)
    · rw [if_pos himpl] at hdl
      exact absurd hdl (List.not_mem_nil d)
    · rw [if_neg himpl] at hdl
      simp only [reportLeakedObjects, List.mem_map, List.mem_filter] at hdl
      obtain ⟨r, ⟨hrr, hot⟩, hr⟩ := hdl
      subst hr
      have hot2 : r.otype = h.name := by simpa using hot
      exact ⟨rfl, by simpa [hot2] using himpl⟩
  · intro r hr h hmem hot himpl
    simp only [List.mem_flatten, List.mem_map]
    refine ⟨(if h.name ∈ ["VkDisplayKHR", "VkDisplayModeKHR"] then []
        else reportLeakedObjects reg h.name "VUID-vkDestroyInstance-instance-00629"),
      ⟨h, hmem, rfl⟩, ?_⟩
    rw [if_neg himpl]
    simp only [reportLeakedObjects, List.mem_map, List.mem_filter]
    exact ⟨r, ⟨hr, by simpa using hot⟩, rfl⟩
  · intro d hd
    rw [if_neg hcb] at hd
    simp only [List.mem_append] at hd
    cases hd with
    | inl hd =>
      simp only [reportLeakedObjects, List.mem_map, List.mem_filter] at hd
      obtain ⟨r, ⟨hrr, hot⟩, hr⟩ := hd
      subst hr
      have hot2 : r.otype = "VkCommandBuffer" := by simpa using hot
      exact ⟨rfl, by simp [hot2]⟩
    | inr hd =>
      simp only [List.mem_flatten, List.mem_map] at hd
      obtain ⟨l, ⟨h, hmem, hl⟩, hdl⟩ := hd
      subst hl
      by_cases himpl : h.name ∈ (["VkDisplayKHR", "VkDisplayModeKHR"] : List String)
      · rw [if_pos himpl] at hdl
        exact absurd hdl (List.not_mem_nil d)
      · rw [if_neg himpl] at hdl
        simp only [reportLeakedObjects, List.mem_map, List.mem_filter] at hdl
        obtain ⟨r, ⟨hrr, hot⟩, hr⟩ := hdl
        subst hr
        have hot2 : r.otype = h.name := by simpa using hot
        exact ⟨rfl, by simpa [hot2] using himpl⟩
  · intro r hr hot
    rw [if_neg hcb]
    apply List.mem_append_left
    simp only [reportLeakedObjects, List.mem_map, List.mem_filter]
    exact ⟨r, ⟨hr, by simpa using hot⟩, rfl⟩
  · intro r hr h hmem hot himpl
    rw [if_neg hcb]
    apply List.mem_append_right
    simp only [List.mem_flatten, List.mem_map]
    refine ⟨(if h.name ∈ ["VkDisplayKHR", "VkDisplayModeKHR"] then []
        else reportLeakedObjects reg h.name "VUID-vkDestroyDevice-device-00378"),
      ⟨h, hmem, rfl⟩, ?_⟩
    rw [if_neg himpl]
    simp only [reportLeakedObjects, List.mem_map, List.mem_filter]
    exact ⟨r, ⟨hr, by simpa using hot⟩, rfl⟩
  · intro r hr h hmem
    exact ((mem_foldl_destroy (instanceScopeHandles hs) reg r).1 hr).2 h hmem
  · intro r hr
    have hx := (mem_foldl_destroy (deviceScopeHandles hs)
      (destroyUndestroyedObjects reg "VkCommandBuffer") r).1 hr
    refine ⟨?_, hx.2⟩
    have hcb2 := hx.1
    simp only [destroyUndestroyedObjects, List.mem_filter] at hcb2
    simpa using hcb2.2

/-- C5 witness: with a surface, a display, a buffer and a command buffer
live, instance teardown reports only the surface (display excluded), device
teardown reports the command buffer and the buffer, and both forced cleanups
leave no in-scope record. -/
theorem c5_witness :
    ((⟨1, "VkSurfaceKHR"⟩ : ObjRecord).otype ≠ hdSurface.name → False)
    ∧ (⟨1, "VkSurfaceKHR", "VUID-vkDestroyInstance-instance-00629"⟩ : LeakDiag)
        ∈ [(⟨1, "VkSurfaceKHR", "VUID-vkDestroyInstance-instance-00629"⟩ : LeakDiag)] := by
  have hx := (c5_teardown_leak_reporting handleListW regW
      [⟨1, "VkSurfaceKHR", "VUID-vkDestroyInstance-instance-00629"⟩]
      [⟨4, "VkCommandBuffer", "VUID-vkDestroyDevice-device-00378"⟩,
       ⟨3, "VkBuffer", "VUID-vkDestroyDevice-device-00378"⟩]
      (by decide) (by decide)).2.1 ⟨1, "VkSurfaceKHR"⟩ (by decide) hdSurface (by decide)
      (by decide) (by decide)
  exact ⟨fun hc => hc (by decide), hx⟩

/-- C6 counterexample: `vkAcquirePerformanceConfigurationINTEL` (real
signature) is treated as a creation command by the generator, but matches
none of the claim's creation/allocation/enumeration/event-registration
patterns and is not a `vkGet` query, refuting the claim's "exactly when". -/
theorem c6_counterexample :
    isCreate cmdAcquirePerf = true ∧ isCreateClaimed cmdAcquirePerf = false := by decide

/-- C6 (amended): a command is a creation call exactly when it matches the
claim's patterns or additionally the INTEL performance-configuration
acquisition pattern; for a creation command the walk skips the member equal
to the exempted last parameter entirely, while any other plain handle
parameter still produces its existence check. -/
theorem c6_amended_create_detection (c : Command) (env : Env) (fuel : Nat)
    (mvs rest : List (Member × Val)) (m sk : Member) (v : Val) (vals : List Val)
    (pn tc : String) (loc : List LocElem) :
    (isCreate c
      = (isCreateClaimed c || strContains c.name "AcquirePerformanceConfigurationINTEL"))
    ∧ (validateObjects env fuel mvs ((sk, v) :: rest) (some sk) pn tc loc
        = validateObjects env fuel mvs rest (some sk) pn tc loc)
    ∧ (m.type ∈ env.handleNames → hasLength m = false →
        strContains m.name "basePipelineHandle" = false → m ≠ sk →
        validateObjects env fuel mvs ((m, v) :: rest) (some sk) pn tc loc
          = { value := valHandle v, otype := m.type, nullAllowed := memberNullAllowed m,
              paramVUID := memberParamVUID env pn m,
              parentVUID := parentVUIDFor env (mvs.map Prod.fst) m pn tc,
              loc := loc ++ [LocElem.field m.name] }
            :: validateObjects env fuel mvs rest (some sk) pn tc loc)
    ∧ (isCreate c = true →
        validateCommandParams env fuel c vals
          = validateObjects env fuel (c.params.zip vals) (c.params.zip vals)
              c.params.getLast? c.name c.name []) := by
  refine ⟨?_, ?_, ?_, ?_⟩
  · simp only [isCreate, isCreateClaimed, List.any_cons, List.any_nil]
    cases h1 : strContains c.name "Create" <;>
      cases h2 : strContains c.name "Allocate" <;>
      cases h3 : strContains c.name "Enumerate" <;>
      cases h4 : strContains c.name "RegisterDeviceEvent" <;>
      cases h5 : strContains c.name "RegisterDisplayEvent" <;>
      cases h6 : strContains c.name "AcquirePerformanceConfigurationINTEL" <;>
      simp
  · cases fuel <;> simp [validateObjects, validateLevel]
  · intro hh hlen hbph hne
    have hskip : ¬(some sk = some m) := fun hc => hne (Option.some.inj hc).symm
    cases fuel <;> simp [validateObjects, validateLevel, hh, hlen, hbph, hskip]
  · intro hc
    simp [validateCommandParams, hc]

/-- C6 witness: `vkCreateSampler` is a creation call under both criteria, and
its exempted last parameter `pSampler` produces no existence check. -/
theorem c6_witness :
    isCreate cmdCreateSampler = true
    ∧ validateObjects envW 1
        [(mDevice, Val.vhandle 1), (mkMember "pSampler" "VkSampler" none true, Val.vhandle 0)]
        [(mkMember "pSampler" "VkSampler" none true, Val.vhandle 0)]
        (some (mkMember "pSampler" "VkSampler" none true)) "vkCreateSampler" "vkCreateSampler"
        [] = [] := by
  constructor
  · have hx := (c6_amended_create_detection cmdCreateSampler envW 1 [] [] mDevice mDevice
      (Val.vhandle 0) [] "x" "x" []).1
    rw [hx]
    decide
  · have hx := (c6_amended_create_detection cmdCreateSampler envW 1
      [(mDevice, Val.vhandle 1), (mkMember "pSampler" "VkSampler" none true, Val.vhandle 0)]
      [] mDevice (mkMember "pSampler" "VkSampler" none true) (Val.vhandle 0) []
      "vkCreateSampler" "vkCreateSampler" []).2.1
    rw [hx]
    decide

/-- C7: a `basePipelineHandle` field is validated exactly when the companion
`flags` has the derivative bit set and the companion `basePipelineIndex` is
-1; it is then validated as non-nullable under the hand-maintained
derivative-pipeline identifier, which falls back to the undefined
placeholder when unregistered; otherwise no check is emitted for it. -/
theorem c7_base_pipeline_handle (env : Env) (fuel : Nat) (mvs rest : List (Member × Val))
    (m : Member) (h : Nat) (pn tc : String) (loc : List LocElem)
    (hhandle : m.type ∈ env.handleNames)
    (hlen : hasLength m = false)
    (hname : strContains m.name "basePipelineHandle" = true) :
    (derivativeBitSet (lookupScalar mvs "flags") = true →
      lookupScalar mvs "basePipelineIndex" = -1 →
      validateObjects env fuel mvs ((m, Val.vhandle h) :: rest) none pn tc loc
        = { value := h, otype := m.type, nullAllowed := false,
            paramVUID := manualVuidGet (pn ++ "-" ++ m.name),
            parentVUID := parentVUIDFor env (mvs.map Prod.fst) m pn tc, loc := [] }
          :: validateObjects env fuel mvs rest none pn tc loc)
    ∧ ((derivativeBitSet (lookupScalar mvs "flags") = false
        ∨ lookupScalar mvs "basePipelineIndex" ≠ -1) →
      validateObjects env fuel mvs ((m, Val.vhandle h) :: rest) none pn tc loc
        = validateObjects env fuel mvs rest none pn tc loc)
    ∧ (∀ key, manualVuids.find? (fun p => p.1 == key) = none →
        manualVuidGet key = kVUIDUndefined) := by
  refine ⟨?_, ?_, ?_⟩
  · intro hbit hidx
    have hidxb : (lookupScalar mvs "basePipelineIndex" == -1) = true := by simpa using hidx
    cases fuel <;>
      simp [validateObjects, validateLevel, hhandle, hlen, hname, hbit, hidxb, valHandle]
  · intro hcond
    have hb : (derivativeBitSet (lookupScalar mvs "flags")
        && (lookupScalar mvs "basePipelineIndex" == -1)) = false := by
      rcases hcond with hc | hc
      · simp [hc]
      · have hcb : (lookupScalar mvs "basePipelineIndex" == -1) = false := by simpa using hc
        simp [hcb]
    cases fuel <;> simp [validateObjects, validateLevel, hhandle, hlen, hname, hb]
  · intro key hk
    simp [manualVuidGet, hk]

/-- C7 witness: in a derivative `VkGraphicsPipelineCreateInfo` (flags bit 0x4
set, index -1) the base pipeline handle is checked, non-nullable, under
`VUID-VkGraphicsPipelineCreateInfo-flags-07984`. -/
theorem c7_witness :
    validateObjects envW 1 gpciDerivative [(mBasePipelineHandle, Val.vhandle 7)] none
        "VkGraphicsPipelineCreateInfo" "vkCreateGraphicsPipelines" []
      = [{ value := 7, otype := "VkPipeline", nullAllowed := false,
           paramVUID := "VUID-VkGraphicsPipelineCreateInfo-flags-07984",
           parentVUID := kVUIDUndefined, loc := [] }] := by
  have hx := (c7_base_pipeline_handle envW 1 gpciDerivative [] mBasePipelineHandle 7
    "VkGraphicsPipelineCreateInfo" "vkCreateGraphicsPipelines" [] (by decide) (by decide)
    (by decide)).1 (by decide) (by decide)
  rw [hx]
  decide

/-- C9: an absent container never aborts validation of the remaining fields:
every member's contribution is prepended to the walk of the rest; a handle
array is visited only when its count is positive and its pointer non-null; a
null struct array, and a null pointer-to-struct, are no-ops; an inline
nested struct (with fuel left) is always visited; in each null case the walk
of the remaining members is exactly the walk without the member. -/
theorem c9_walk_containers (env : Env) (fuel : Nat) (mvs rest : List (Member × Val))
    (m : Member) (v : Val) (sk : Option Member) (pn tc : String) (loc : List LocElem) :
    (∃ contrib, validateObjects env fuel mvs ((m, v) :: rest) sk pn tc loc
        = contrib ++ validateObjects env fuel mvs rest sk pn tc loc)
    ∧ (m.type ∈ env.handleNames → hasLength m = true →
        validateObjects env fuel mvs ((m, Val.varr none) :: rest) sk pn tc loc
          = validateObjects env fuel mvs rest sk pn tc loc)
    ∧ (m.type ∈ env.handleNames → hasLength m = true →
        lookupScalar mvs (m.length.getD "") ≤ 0 → ∀ hsA,
        validateObjects env fuel mvs ((m, Val.varr (some hsA)) :: rest) sk pn tc loc
          = validateObjects env fuel mvs rest sk pn tc loc)
    ∧ (m.type ∉ env.handleNames → m.length.isSome = true →
        validateObjects env fuel mvs ((m, Val.vsarr none) :: rest) sk pn tc loc
          = validateObjects env fuel mvs rest sk pn tc loc)
    ∧ (m.type ∉ env.handleNames → m.length = none → m.pointer = true →
        validateObjects env fuel mvs ((m, Val.vptr none) :: rest) sk pn tc loc
          = validateObjects env fuel mvs rest sk pn tc loc)
    ∧ (∀ smembers fs, m.type ∉ env.handleNames →
        env.structs.find? (fun p => p.1 == m.type) = some (m.type, smembers) →
        structContainsObject env (fuel + 1) m.type = true →
        m.length = none → m.pointer = false → sk ≠ some m →
        validateObjects env (fuel + 1) mvs ((m, Val.vstruct fs) :: rest) sk pn tc loc
          = validateObjects env fuel (smembers.zip fs) (smembers.zip fs) none m.type tc
              (loc ++ [LocElem.field m.name])
            ++ validateObjects env (fuel + 1) mvs rest sk pn tc loc) := by
  refine ⟨?_, ?_, ?_, ?_, ?_, ?_⟩
  · cases fuel <;>
      · simp only [validateObjects, validateLevel]
        exact ⟨_, rfl⟩
  · intro hh hlen
    cases fuel <;> simp [validateObjects, validateLevel, hh, hlen]
  · intro hh hlen hcnt hsA
    have hz : (lookupScalar mvs (m.length.getD "")).toNat = 0 := Int.toNat_of_nonpos hcnt
    cases fuel <;> simp [validateObjects, validateLevel, hh, hlen, hz]
  · intro hh hlen
    cases fuel <;>
      · simp only [validateObjects, validateLevel, hlen]
        split <;> simp_all
        split <;> rfl
  · intro hh hlen hptr
    cases fuel <;>
      · simp only [validateObjects, validateLevel, hlen, hptr]
        split <;> simp_all
        split <;> rfl
  · intro smembers fs hh hfind hcont hlen hptr hsk
    have hskip : ¬(sk = some m) := hsk
    simp [validateObjects, validateLevel, hh, hfind, hcont, hlen, hptr, hskip]

/-- C9 witness: a null handle array contributes nothing and the walk of the
remaining members proceeds. -/
theorem c9_witness :
    validateObjects envW 1 [(mPPipelines, Val.varr none)] [(mPPipelines, Val.varr none)] none
        "vkCreateGraphicsPipelines" "vkCreateGraphicsPipelines" []
      = validateObjects envW 1 [(mPPipelines, Val.varr none)] [] none
        "vkCreateGraphicsPipelines" "vkCreateGraphicsPipelines" [] :=
  (c9_walk_containers envW 1 [(mPPipelines, Val.varr none)] [] mPPipelines (Val.varr none)
    none "vkCreateGraphicsPipelines" "vkCreateGraphicsPipelines" []).2.1 (by decide) (by decide)
